import Mathlib

/-!
Shallow embedding of `certidude/auth.py`: request authentication and
authorization for a certificate-authority management service.

Python strings are embedded as `List Char` (`PyStr`), Python `set` as
`Finset`, raised exceptions as explicit outcome constructors, and the
external identity providers (GSSAPI library, LDAP directory, PAM stack,
base64 codec) as oracle parameters, matching their role as opaque
collaborators in the source.
-/

namespace Certidude

/-- Python strings, embedded as lists of characters. -/
abbrev PyStr := List Char

/-- Lift a Lean string literal to the `PyStr` embedding. -/
def str (s : String) : PyStr := s.data

/-- Render a `PyStr` back to a Lean `String` (used when building messages). -/
def asString (s : PyStr) : String := String.mk s

/-- Split a character list at every character satisfying `p`, keeping empty
pieces, as Python `s.split(sep)` does for a one-character separator. -/
def splitOnPred (p : Char → Bool) : List Char → List (List Char)
  | [] => [[]]
  | c :: rest =>
    if p c then [] :: splitOnPred p rest
    else (c :: (splitOnPred p rest).headD []) :: (splitOnPred p rest).tail

/-- Python `s.split("<sep>")` for a one-character separator: empty pieces kept. -/
def splitOnChar (sep : Char) (l : PyStr) : List PyStr :=
  splitOnPred (fun c => c == sep) l

/-- Python `s.split()` with no argument: split on whitespace runs, dropping
empty pieces. -/
def pySplitWs (s : PyStr) : List PyStr :=
  (splitOnPred (fun c => c.isWhitespace) s).filter (fun x => !x.isEmpty)

/-- Python `"".join(pieces)`: concatenation of the pieces. -/
def pyJoin (l : List PyStr) : PyStr := l.foldr (· ++ ·) []

/-- Python `s.split(sep, 1)` unpacked into exactly two names: `some (a, b)`
when the separator occurs (split at its first occurrence), `none` when the
unpacking would fail because the separator is absent. -/
def pySplitOnce : PyStr → Char → Option (PyStr × PyStr)
  | [], _ => none
  | c :: rest, sep =>
    if c = sep then some ([], rest)
    else (pySplitOnce rest sep).map (fun ab => (c :: ab.1, ab.2))

theorem splitOnPred_ne_nil (p : Char → Bool) (l : List Char) :
    splitOnPred p l ≠ [] := by
  cases l with
  | nil => simp [splitOnPred]
  | cons c rest =>
    simp only [splitOnPred]
    split <;> simp

theorem splitOnPred_length (p : Char → Bool) (l : List Char) :
    (splitOnPred p l).length = l.countP p + 1 := by
  induction l with
  | nil => simp [splitOnPred]
  | cons c rest ih =>
    by_cases h : p c
    · simp [splitOnPred, h, List.countP_cons, ih]
    · have hne := splitOnPred_ne_nil p rest
      have hpos : 0 < (splitOnPred p rest).length := List.length_pos.mpr hne
      simp [splitOnPred, h, List.length_tail, List.countP_cons, ih]

theorem splitOnChar_length (sep : Char) (l : PyStr) :
    (splitOnChar sep l).length = l.count sep + 1 := by
  have : l.count sep = l.countP (fun c => c == sep) := by
    simp [List.count]
  rw [splitOnChar, splitOnPred_length, this]

/-- Python exceptions that the module can raise or propagate. -/
inductive PyError where
  | valueError (msg : String)
  | keyError
  | attributeError
  | typeError
  | notImplementedError (msg : String)
  | ldapError
  | gssError (majorText : String) (majorCode : Int) (minorText : String) (minorCode : Int)
deriving Repr, DecidableEq

/-- The `User` object of `auth.py` (plus the `dn` attribute that
`ldap_account_info` attaches dynamically). -/
structure User where
  mail : Option PyStr
  name : PyStr
  domain : Option PyStr
  given_name : Option PyStr
  surname : Option PyStr
  dn : Option PyStr
deriving Repr, DecidableEq

/-- `User.__init__`: split the raw principal on `"@"`; with an `"@"` present,
`mail` is the full raw string and `name, domain = name.split("@")` — an
unpacking that raises `ValueError` unless the split has exactly two parts. -/
def userInit (name : PyStr) : Except PyError User :=
  if '@' ∈ name then
    match splitOnChar '@' name with
    | [n, d] => .ok ⟨some name, n, some d, none, none, none⟩
    | _ => .error (.valueError "too many values to unpack")
  else
    .ok ⟨none, name, none, none, none, none⟩

/-- Python truthiness of an optional string: `None` and `""` are falsy. -/
def truthy : Option PyStr → Bool
  | some (_ :: _) => true
  | _ => false

/-- `User.__repr__`: `"given surname <mail>"` when both name parts are truthy,
otherwise `self.mail` (which may be `None`). -/
def userRepr (u : User) : Option PyStr :=
  if truthy u.given_name && truthy u.surname then
    some (u.given_name.getD [] ++ str " " ++ u.surname.getD [] ++ str " <" ++
      (match u.mail with | some m => m | none => str "None") ++ str ">")
  else
    u.mail

/-- Python `"%s" % user`: `str()` of the object, falling back to `__repr__`;
a `None` representation renders as `"None"`. -/
def pyStrOfUser (u : User) : PyStr :=
  match userRepr u with
  | some s => s
  | none => str "None"

/-- The per-request mutable context bag (`req.context`), with the keys this
module reads and writes: `user`, `groups` (a Python set), `ldap_conn`
(an opaque bound-connection handle, modelled by its presence). -/
structure Ctx where
  user : Option User
  groups : Finset PyStr
  ldapConn : Option Nat
deriving DecidableEq

/-- Outcome of a wrapped request handler: a normal return, or one of the
raised exceptions (`falcon.HTTPUnauthorized`, `falcon.HTTPForbidden` with
title and optional description, or an ordinary Python error propagating). -/
inductive Outcome (α : Type) where
  | ok (a : α)
  | unauthorized (title : String) (msg : Option String)
  | forbidden (title : String) (msg : Option String)
  | err (e : PyError)
deriving Repr, DecidableEq

/-- Whether an outcome is a normal return (no exception raised). -/
def Outcome.isOk : Outcome α → Bool
  | .ok _ => true
  | _ => false

/-- Result of running an authorization check wrapper: the outcome, the
context after the run, and how many times the backing group database
(system group database or directory) was queried during the run. -/
structure CheckResult (α : Type) where
  outcome : Outcome α
  ctx : Ctx
  queries : Nat
deriving DecidableEq

/-- Python values that can be compared by the `in` operator against the
configured whitelist: strings, and `User` objects (identified by object id,
since `User` defines no `__eq__`). -/
inductive PyVal where
  | vStr (s : PyStr)
  | vUser (u : User) (objId : Nat)
deriving Repr, DecidableEq

/-- Python (2) equality as used by `x in collection`: strings compare by
content, `User` objects by identity, and values of different types are
never equal. -/
def pyEq : PyVal → PyVal → Bool
  | .vStr a, .vStr b => a == b
  | .vUser _ i, .vUser _ j => i == j
  | _, _ => false

/-- `whitelist_authorize` inside `authorize_admin`: raise `HTTPForbidden`
unless the context has a user and `req.context.get("user")` — the `User`
object itself — is a member of `config.ADMIN_WHITELIST`; otherwise run the
wrapped operation.  `uid` is the object id of the context's user object. -/
def whitelist_authorize (wl : List PyVal) (uid : Nat)
    (func : Ctx → Outcome α × Ctx) (ctx : Ctx) : CheckResult α :=
  match ctx.user with
  | none =>
    ⟨.forbidden "Forbidden" (some "User None not whitelisted"), ctx, 0⟩
  | some u =>
    if wl.any (fun v => pyEq (.vUser u uid) v) then
      let r := func ctx
      ⟨r.1, r.2, 0⟩
    else
      ⟨.forbidden "Forbidden"
        (some ("User " ++ asString (pyStrOfUser u) ++ " not whitelisted")), ctx, 0⟩

/-- `posix_check_group_membership` inside `member_of`: resolve the named
system group via `grp.getgrnam` (always queried first; `KeyError` when the
group does not exist), require the authenticated username among its members
(else `HTTPForbidden`), record the group name into `context.groups`, then run
the wrapped operation. -/
def posix_check_group_membership (grpDB : PyStr → Option (List PyStr))
    (group_name : PyStr) (func : Ctx → Outcome α × Ctx) (ctx : Ctx) :
    CheckResult α :=
  match grpDB group_name with
  | none => ⟨.err .keyError, ctx, 1⟩
  | some members =>
    match ctx.user with
    | none => ⟨.err .attributeError, ctx, 1⟩
    | some u =>
      if u.name ∈ members then
        let r := func { ctx with groups := insert group_name ctx.groups }
        ⟨r.1, r.2, 1⟩
      else
        ⟨.forbidden "Forbidden" (some "User not member of designated group"), ctx, 1⟩

/-- `ldap_check_group_membership` inside `member_of`: build the member filter
from the group name and the user's `dn` attribute (raising `AttributeError`
when the user or its `dn` is missing), search the directory over the
context's connection, and on the first entry with a real DN record the group
into `context.groups` and run the wrapped operation; with no such entry raise
`ValueError`.  `searchRes` is the directory's answer, a list of
(DN, entry) pairs where a `none` DN stands for a referral. -/
def ldap_check_group_membership (searchRes : List (Option PyStr × Unit))
    (group_name : PyStr) (func : Ctx → Outcome α × Ctx) (ctx : Ctx) :
    CheckResult α :=
  match ctx.user with
  | none => ⟨.err .attributeError, ctx, 0⟩
  | some u =>
    match u.dn with
    | none => ⟨.err .attributeError, ctx, 0⟩
    | some _ =>
      match ctx.ldapConn with
      | none => ⟨.err .attributeError, ctx, 0⟩
      | some _ =>
        if searchRes.any (fun p => p.1.isSome) then
          let r := func { ctx with groups := insert group_name ctx.groups }
          ⟨r.1, r.2, 1⟩
        else
          ⟨.err (.valueError ("Failed to look up group " ++ asString group_name ++
            " with " ++ asString u.name ++ " listed as member in LDAP")), ctx, 1⟩

/-- `member_of`: dispatch on `config.AUTHORIZATION_BACKEND` between the LDAP
and POSIX group checks; any other configured value raises
`NotImplementedError`. -/
def member_of (backend : String) (grpDB : PyStr → Option (List PyStr))
    (searchRes : List (Option PyStr × Unit)) (group_name : PyStr)
    (func : Ctx → Outcome α × Ctx) (ctx : Ctx) : CheckResult α :=
  if backend = "ldap" then
    ldap_check_group_membership searchRes group_name func ctx
  else if backend = "posix" then
    posix_check_group_membership grpDB group_name func ctx
  else
    ⟨.err (.notImplementedError ("Authorization backend " ++ backend ++ " not supported")),
      ctx, 0⟩

/-- `authorize_admin`: with authorization backend `"whitelist"` apply
`whitelist_authorize`, otherwise `member_of(config.ADMINS_GROUP)`.
`wl` models `config.ADMIN_WHITELIST` and `adminsGroup` models
`config.ADMINS_GROUP` (configuration values not part of this module). -/
def authorize_admin (backend : String) (wl : List PyVal) (uid : Nat)
    (grpDB : PyStr → Option (List PyStr)) (searchRes : List (Option PyStr × Unit))
    (adminsGroup : PyStr) (func : Ctx → Outcome α × Ctx) (ctx : Ctx) : CheckResult α :=
  if backend = "whitelist" then
    whitelist_authorize wl uid func ctx
  else
    member_of backend grpDB searchRes adminsGroup func ctx

/-- A directory entry as `search_s` returns it: each requested attribute is
a list of values; a missing attribute is the empty list (standing for the
`None` that `dict.get` yields).  The source reads both the `"givenname"` and
the `"givenName"` keys, so both spellings are carried. -/
structure LdapEntry where
  cn : List PyStr
  givenname : List PyStr
  givenNameAttr : List PyStr
  sn : List PyStr
  mail : List PyStr
  userPrincipalName : List PyStr
deriving Repr, DecidableEq

/-- Python `x, = lst` sequence unpacking of an attribute value list: `None`
(missing attribute) raises `TypeError`, a list of length other than one
raises `ValueError`. -/
def unpackSingle (l : List PyStr) : Except PyError PyStr :=
  match l with
  | [] => .error .typeError
  | [x] => .ok x
  | _ => .error (.valueError "unpack")

/-- External state consulted by `ldap_account_info`: the configured server
list, whether `/etc/krb5.keytab` exists, the `KRB5CCNAME` environment
variable, whether the SASL/GSSAPI bind succeeds, and the directory's answer
to the user search. -/
structure LdapAcctEnv where
  servers : List String
  keytabExists : Bool
  ticketCache : Option String
  saslBindOk : Bool
  searchResult : List (Option PyStr × LdapEntry)

/-- Result of running an account-info wrapper: outcome, final context, how
many times `unbind_s` was called on the directory connection, and whether a
new connection was opened (and stored into the context) during this run. -/
structure AcctResult (α : Type) where
  outcome : Outcome α
  ctx : Ctx
  unbinds : Nat
  openedNew : Bool
deriving DecidableEq

/-- The connection phase of `ldap_account_info`: when the context holds no
connection yet, take the first configured server, require the keytab and a
ticket cache, SASL-bind with the service credentials and store the connection
in the context.  Returns the context and whether a connection was newly
opened, or the raised error. -/
def ldapAcctConnect (env : LdapAcctEnv) (ctx : Ctx) : Except PyError (Ctx × Bool) :=
  match ctx.ldapConn with
  | some _ => .ok (ctx, false)
  | none =>
    match env.servers with
    | [] => .error (.valueError "No LDAP servers!")
    | _ :: _ =>
      if env.keytabExists then
        match env.ticketCache with
        | none => .error (.valueError
            "Ticket cache not initialized, unable to authenticate with computer account against LDAP server!")
        | some _ =>
          if env.saslBindOk then .ok ({ ctx with ldapConn := some 0 }, true)
          else .error .ldapError
      else
        .error (.notImplementedError "LDAP simple bind not supported, use Kerberos")

/-- The enrichment assignments of `ldap_account_info` for the first entry
with a real DN: prefer `givenName` + `sn` (unpacked as single values) when
the `givenname`/`sn` attributes are truthy, else split the `cn` on its first
space; then set `dn`, and `mail` from `mail` or `userPrincipalName` or
`None`. -/
def enrichFromEntry (dn : PyStr) (entry : LdapEntry) (u : User) : Except PyError User := do
  let u1 ←
    if !entry.givenname.isEmpty && !entry.sn.isEmpty then do
      let g ← unpackSingle entry.givenNameAttr
      let s ← unpackSingle entry.sn
      pure { u with given_name := some g, surname := some s }
    else do
      let c ← unpackSingle entry.cn
      if ' ' ∈ c then
        match pySplitOnce c ' ' with
        | some (g, s) => pure { u with given_name := some g, surname := some s }
        | none => pure u
      else
        pure u
  let u2 := { u1 with dn := some dn }
  match (if !entry.mail.isEmpty then some entry.mail
         else if !entry.userPrincipalName.isEmpty then some entry.userPrincipalName
         else none) with
  | none => pure { u2 with mail := none }
  | some l =>
    match l with
    | [m] => pure { u2 with mail := some m }
    | _ => .error (.valueError "unpack")

/-- `ldap_account_info`: establish (or reuse) the directory connection, look
the authenticated user up, enrich the context's user from the first entry
with a real DN, run the wrapped operation, and — only after the wrapped
operation returns normally — release the connection with `unbind_s`; with no
matching entry raise `ValueError`. -/
def ldap_account_info (env : LdapAcctEnv) (func : Ctx → Outcome α × Ctx)
    (ctx : Ctx) : AcctResult α :=
  match ldapAcctConnect env ctx with
  | .error e => ⟨.err e, ctx, 0, false⟩
  | .ok (ctx1, opened) =>
    match ctx1.user with
    | none => ⟨.err .attributeError, ctx1, 0, opened⟩
    | some u =>
      match env.searchResult.find? (fun p => p.1.isSome) with
      | none =>
        ⟨.err (.valueError ("Failed to look up " ++ asString (pyStrOfUser u) ++ " in LDAP")),
          ctx1, 0, opened⟩
      | some (dnOpt, entry) =>
        match dnOpt with
        | none => ⟨.err .attributeError, ctx1, 0, opened⟩
        | some dn =>
          match enrichFromEntry dn entry u with
          | .error e => ⟨.err e, ctx1, 0, opened⟩
          | .ok u2 =>
            let r := func { ctx1 with user := some u2 }
            match r.1 with
            | .ok a => ⟨.ok a, r.2, 1, opened⟩
            | o => ⟨o, r.2, 0, opened⟩

/-- The inbound request as this module reads it: the raw `Authorization`
header (`req.auth`, absent or a string) and the boolean `authenticate` query
parameter consulted on the optional path. -/
structure Req where
  auth : Option PyStr
  authParamTrue : Bool
deriving Repr, DecidableEq

/-- `kerberos.AUTH_GSS_COMPLETE`. -/
def AUTH_GSS_COMPLETE : Int := 1

/-- `kerberos.AUTH_GSS_CONTINUE`. -/
def AUTH_GSS_CONTINUE : Int := 0

/-- Outcome of `kerberos.authGSSServerStep`: a result code, a `GSSError`
(whose `args` are the (text, code) major and minor pairs), or a `KrbError`. -/
inductive StepRes where
  | ok (result : Int)
  | gssFail (majorText : String) (majorCode : Int) (minorText : String) (minorCode : Int)
  | krbFail (msg : String)
deriving Repr, DecidableEq

/-- Behaviour of the GSSAPI library during one request: the outcomes of
`authGSSServerInit`, `authGSSServerStep`, `authGSSServerUserName` and
`authGSSServerClean`.  Errors carry the (text, code) major and minor pairs
of `GSSError.args`. -/
structure GssBehavior where
  initOk : Bool
  initMajorText : String
  initMinorText : String
  stepRes : StepRes
  userName : PyStr
  cleanOk : Bool
  cleanMajorText : String
  cleanMajorCode : Int
  cleanMinorText : String
  cleanMinorCode : Int
deriving Repr, DecidableEq

/-- Result of running an authentication wrapper: the outcome, the final
context, the final response headers, how many times `authGSSServerClean` was
called, and the token passed to `authGSSServerStep` (when the step was
reached). -/
structure AuthResult (α : Type) where
  outcome : Outcome α
  ctx : Ctx
  headers : List (String × String)
  cleanCalls : Nat
  stepArg : Option PyStr
deriving DecidableEq

/-- The token extraction of `kerberos_authenticate`:
`token = ''.join(req.auth.split()[1:])`. -/
def kerberosToken (auth : PyStr) : PyStr :=
  pyJoin ((pySplitWs auth).drop 1)

/-- `kerberos_authenticate` inside `authenticate`: on the optional bypass run
the raw wrapped function; with no `Authorization` header append a `Negotiate`
challenge and raise `HTTPUnauthorized`; otherwise extract the token, run the
GSSAPI init/step exchange (init failure is `HTTPForbidden`; step failure
cleans the context and raises `HTTPForbidden`, a clean failure there
propagating as the unhandled `GSSError`), populate `context.user` and
`context.groups`, clean the context (a `GSSError` here raising
`HTTPUnauthorized`), and dispatch on the step result: complete runs
`account_info(func)`, continue raises `HTTPUnauthorized`, anything else
`HTTPForbidden`. -/
def kerberos_authenticate (optional : Bool) (gss : GssBehavior)
    (func accountFunc : Ctx → Outcome α × Ctx) (req : Req) (ctx : Ctx)
    (hdrs : List (String × String)) : AuthResult α :=
  if optional && !req.authParamTrue then
    let r := func ctx
    ⟨r.1, r.2, hdrs, 0, none⟩
  else
    match req.auth with
    | none =>
      ⟨.unauthorized "Unauthorized"
        (some "No Kerberos ticket offered, are you sure you've logged in with domain user account?"),
        ctx, hdrs ++ [("WWW-Authenticate", "Negotiate")], 0, none⟩
    | some auth =>
      let token := kerberosToken auth
      if !gss.initOk then
        ⟨.forbidden "Forbidden"
          (some ("Authentication System Failure: " ++ gss.initMajorText ++ "(" ++
            gss.initMinorText ++ ")")), ctx, hdrs, 0, none⟩
      else
        match gss.stepRes with
        | .gssFail majT majC _ _ =>
          if gss.cleanOk then
            ⟨.forbidden "Forbidden"
              (some ("Bad credentials: " ++ majT ++ " (" ++ toString majC ++ ")")),
              ctx, hdrs, 1, some token⟩
          else
            ⟨.err (.gssError gss.cleanMajorText gss.cleanMajorCode gss.cleanMinorText
              gss.cleanMinorCode), ctx, hdrs, 1, some token⟩
        | .krbFail msg =>
          if gss.cleanOk then
            ⟨.forbidden "Forbidden" (some ("Bad credentials: " ++ msg)),
              ctx, hdrs, 1, some token⟩
          else
            ⟨.err (.gssError gss.cleanMajorText gss.cleanMajorCode gss.cleanMinorText
              gss.cleanMinorCode), ctx, hdrs, 1, some token⟩
        | .ok result =>
          match userInit gss.userName with
          | .error e => ⟨.err e, ctx, hdrs, 0, some token⟩
          | .ok u =>
            let ctx1 := { ctx with user := some u, groups := ∅ }
            if !gss.cleanOk then
              ⟨.unauthorized ("Authentication System Failure " ++ gss.cleanMajorText ++
                " (" ++ gss.cleanMinorText ++ ")") none, ctx1, hdrs, 1, some token⟩
            else if result = AUTH_GSS_COMPLETE then
              let r := accountFunc ctx1
              ⟨r.1, r.2, hdrs, 1, some token⟩
            else if result = AUTH_GSS_CONTINUE then
              ⟨.unauthorized "Unauthorized" (some "Tried GSSAPI"), ctx1, hdrs, 1, some token⟩
            else
              ⟨.forbidden "Forbidden" (some "Tried GSSAPI"), ctx1, hdrs, 1, some token⟩

/-- `ldap_authenticate` inside `authenticate`: on the optional bypass run the
raw wrapped function; with no header append a `Basic` challenge and raise
`HTTPUnauthorized`; a non-`Basic` scheme is `HTTPForbidden`; decode the
credential pair, bind to the first configured server (qualifying the
username with `constants.DOMAIN` when it has no `"@"`), re-issuing the
`Basic` challenge and raising `HTTPUnauthorized` on a bind failure, store the
connection, populate `context.user`/`context.groups`, and run
`account_info(func)`.  `b64` is the `b64decode` codec and `bindOk` the
directory's answer to `simple_bind_s`. -/
def ldap_authenticate (optional : Bool) (dom : PyStr) (servers : List String)
    (b64 : PyStr → PyStr) (bindOk : String → PyStr → PyStr → Bool)
    (func accountFunc : Ctx → Outcome α × Ctx) (req : Req) (ctx : Ctx)
    (hdrs : List (String × String)) : AuthResult α :=
  if optional && !req.authParamTrue then
    let r := func ctx
    ⟨r.1, r.2, hdrs, 0, none⟩
  else
    match req.auth with
    | none =>
      ⟨.unauthorized "Forbidden"
        (some ("Please authenticate with " ++ asString dom ++ " domain account or supply UPN")),
        ctx, hdrs ++ [("WWW-Authenticate", "Basic")], 0, none⟩
    | some auth =>
      if !(str "Basic ").isPrefixOf auth then
        ⟨.forbidden "Forbidden" (some ("Bad header: " ++ asString auth)), ctx, hdrs, 0, none⟩
      else
        match pySplitOnce auth ' ' with
        | none => ⟨.err (.valueError "need more than 1 value to unpack"), ctx, hdrs, 0, none⟩
        | some (_, token) =>
          match pySplitOnce (b64 token) ':' with
          | none => ⟨.err (.valueError "need more than 1 value to unpack"), ctx, hdrs, 0, none⟩
          | some (user, passwd) =>
            let proceed : Ctx → AuthResult α := fun c =>
              match userInit user with
              | .error e => ⟨.err e, c, hdrs, 0, none⟩
              | .ok u =>
                let r := accountFunc { c with user := some u, groups := ∅ }
                ⟨r.1, r.2, hdrs, 0, none⟩
            match ctx.ldapConn with
            | some _ => proceed ctx
            | none =>
              match servers with
              | [] => ⟨.err (.valueError "No LDAP servers!"), ctx, hdrs, 0, none⟩
              | server :: _ =>
                let bindName := if '@' ∈ user then user else user ++ str "@" ++ dom
                if bindOk server bindName passwd then
                  proceed { ctx with ldapConn := some 0 }
                else
                  ⟨.unauthorized "Forbidden"
                    (some ("Please authenticate with " ++ asString dom ++
                      " domain account or supply UPN")),
                    ctx, hdrs ++ [("WWW-Authenticate", "Basic")], 0, none⟩

/-- `pam_authenticate` inside `authenticate`: on the optional bypass run the
raw wrapped function; with no header append a `Basic` challenge and raise
`HTTPUnauthorized`; a non-`Basic` scheme is `HTTPForbidden`; decode the
credential pair, check it against the local `"sshd"` PAM service (failure is
`HTTPUnauthorized` "Invalid password"), populate `context.user` and
`context.groups`, and run `account_info(func)`. -/
def pam_authenticate (optional : Bool) (b64 : PyStr → PyStr)
    (pamOk : PyStr → PyStr → Bool) (func accountFunc : Ctx → Outcome α × Ctx)
    (req : Req) (ctx : Ctx) (hdrs : List (String × String)) : AuthResult α :=
  if optional && !req.authParamTrue then
    let r := func ctx
    ⟨r.1, r.2, hdrs, 0, none⟩
  else
    match req.auth with
    | none =>
      ⟨.unauthorized "Forbidden" (some "Please authenticate"),
        ctx, hdrs ++ [("WWW-Authenticate", "Basic")], 0, none⟩
    | some auth =>
      if !(str "Basic ").isPrefixOf auth then
        ⟨.forbidden "Forbidden" (some ("Bad header: " ++ asString auth)), ctx, hdrs, 0, none⟩
      else
        match pySplitOnce auth ' ' with
        | none => ⟨.err (.valueError "need more than 1 value to unpack"), ctx, hdrs, 0, none⟩
        | some (_, token) =>
          match pySplitOnce (b64 token) ':' with
          | none => ⟨.err (.valueError "need more than 1 value to unpack"), ctx, hdrs, 0, none⟩
          | some (user, passwd) =>
            if !pamOk user passwd then
              ⟨.unauthorized "Forbidden" (some "Invalid password"), ctx, hdrs, 0, none⟩
            else
              match userInit user with
              | .error e => ⟨.err e, ctx, hdrs, 0, none⟩
              | .ok u =>
                let r := accountFunc { ctx with user := some u, groups := ∅ }
                ⟨r.1, r.2, hdrs, 0, none⟩

/-- The `authenticate` dispatcher: `config.AUTHENTICATION_BACKENDS` selects
exactly one of the three adapters; any other value raises
`NotImplementedError`. -/
def authenticate (backend : String) (optional : Bool) (gss : GssBehavior)
    (dom : PyStr) (servers : List String) (b64 : PyStr → PyStr)
    (bindOk : String → PyStr → PyStr → Bool) (pamOk : PyStr → PyStr → Bool)
    (func accountFunc : Ctx → Outcome α × Ctx) (req : Req) (ctx : Ctx)
    (hdrs : List (String × String)) : AuthResult α :=
  if backend = "kerberos" then
    kerberos_authenticate optional gss func accountFunc req ctx hdrs
  else if backend = "pam" then
    pam_authenticate optional b64 pamOk func accountFunc req ctx hdrs
  else if backend = "ldap" then
    ldap_authenticate optional dom servers b64 bindOk func accountFunc req ctx hdrs
  else
    ⟨.err (.notImplementedError ("Authentication backend " ++ backend ++ " not supported")),
      ctx, hdrs, 0, none⟩

/-! ## Claims -/

/-- C7: Identity construction from a raw principal string: for principal
"alice@example.com" the resulting Identity has local part "alice" and domain
part "example.com"; for principal "alice" (no "@") the local part is "alice"
and the domain part is unset. -/
theorem C7_identity_parsing :
    userInit (str "alice@example.com") =
      .ok ⟨some (str "alice@example.com"), str "alice", some (str "example.com"),
        none, none, none⟩ ∧
    userInit (str "alice") = .ok ⟨none, str "alice", none, none, none, none⟩ := by
  constructor <;> rfl

/-- C9: Identity construction is partial — for every principal string with
more than one "@" the construction raises an error (the two-name unpacking
of the split cannot be performed); it succeeds for every string with zero or
one "@". -/
theorem C9_userInit_partiality (s : PyStr) :
    (2 ≤ s.count '@' → ∃ e, userInit s = .error e) ∧
    (s.count '@' ≤ 1 → ∃ u, userInit s = .ok u) := by
  have hlen : (splitOnChar '@' s).length = s.count '@' + 1 := splitOnChar_length _ _
  constructor
  · intro h2
    have hmem : '@' ∈ s := by
      rw [← List.count_pos_iff]
      omega
    unfold userInit
    rw [if_pos hmem]
    rcases hsp : splitOnChar '@' s with _ | ⟨a, _ | ⟨b, _ | ⟨c, t⟩⟩⟩ <;>
      rw [hsp] at hlen
    · simp at hlen
    · simp at hlen; omega
    · simp at hlen; omega
    · exact ⟨_, rfl⟩
  · intro h1
    by_cases hmem : '@' ∈ s
    · have hc : s.count '@' = 1 := by
        have := List.count_pos_iff.mpr hmem
        omega
      rw [hc] at hlen
      unfold userInit
      rw [if_pos hmem]
      rcases hsp : splitOnChar '@' s with _ | ⟨a, _ | ⟨b, _ | ⟨c, t⟩⟩⟩ <;>
        rw [hsp] at hlen <;> simp at hlen
      exact ⟨_, rfl⟩
    · unfold userInit
      rw [if_neg hmem]
      exact ⟨_, rfl⟩

/-- Witness for C9 at concrete inputs: "a@b@c" fails, "a@b" succeeds. -/
theorem C9_userInit_partiality_witness :
    (∃ e, userInit (str "a@b@c") = .error e) ∧
    (∃ u, userInit (str "a@b") = .ok u) :=
  ⟨(C9_userInit_partiality (str "a@b@c")).1 (by decide),
   (C9_userInit_partiality (str "a@b")).2 (by decide)⟩

/-- C10: at construction time, an Identity built from a principal with
exactly one "@" already has `mail` set to the full raw principal string,
while one built from a principal without "@" has `mail` unset. -/
theorem C10_mail_at_construction (s : PyStr) :
    (s.count '@' = 1 → ∃ u, userInit s = .ok u ∧ u.mail = some s) ∧
    (s.count '@' = 0 → ∃ u, userInit s = .ok u ∧ u.mail = none) := by
  have hlen : (splitOnChar '@' s).length = s.count '@' + 1 := splitOnChar_length _ _
  constructor
  · intro h1
    have hmem : '@' ∈ s := by
      rw [← List.count_pos_iff]
      omega
    rw [h1] at hlen
    unfold userInit
    rw [if_pos hmem]
    rcases hsp : splitOnChar '@' s with _ | ⟨a, _ | ⟨b, _ | ⟨c, t⟩⟩⟩ <;>
      rw [hsp] at hlen <;> simp at hlen
    exact ⟨_, rfl, rfl⟩
  · intro h0
    have hmem : '@' ∉ s := by
      rw [← List.count_eq_zero]
      exact h0
    unfold userInit
    rw [if_neg hmem]
    exact ⟨_, rfl, rfl⟩

/-- Witness for C10 at concrete inputs: "alice@example.com" has mail set to
the raw principal, "alice" has mail unset. -/
theorem C10_mail_at_construction_witness :
    (∃ u, userInit (str "alice@example.com") = .ok u ∧
      u.mail = some (str "alice@example.com")) ∧
    (∃ u, userInit (str "alice") = .ok u ∧ u.mail = none) :=
  ⟨(C10_mail_at_construction (str "alice@example.com")).1 (by decide),
   (C10_mail_at_construction (str "alice")).2 (by decide)⟩

/-- C1 (code bug): with authorization backend "whitelist", configured
whitelist {"alice@example.com"} and an authenticated identity whose string
representation is "alice@example.com", the administrative check does NOT
pass: `whitelist_authorize` tests the `User` object itself — not its string
representation — for membership in the set of configured strings, and a
`User` object never equals a string, so the check raises Forbidden for every
authenticated user.  The theorem evaluates the code at the failing input:
the identity parsed from "alice@example.com", whose representation is
exactly the whitelisted string, is still rejected. -/
theorem C1_whitelist_never_passes :
    userInit (str "alice@example.com") =
      .ok ⟨some (str "alice@example.com"), str "alice", some (str "example.com"),
        none, none, none⟩ ∧
    userRepr ⟨some (str "alice@example.com"), str "alice", some (str "example.com"),
      none, none, none⟩ = some (str "alice@example.com") ∧
    (authorize_admin "whitelist" [.vStr (str "alice@example.com")] 0
      (fun _ => none) [] (str "admins") (fun c => (Outcome.ok (0 : Nat), c))
      ⟨some ⟨some (str "alice@example.com"), str "alice", some (str "example.com"),
        none, none, none⟩, ∅, none⟩).outcome =
      .forbidden "Forbidden" (some "User alice@example.com not whitelisted") := by
  refine ⟨rfl, rfl, ?_⟩
  rfl

/-- C6: local (POSIX) group membership check: when the username appears in
the resolved system group's member list the check passes — the wrapped
operation runs on the context with the group name added to `context.groups`;
when the username is absent the check fails as Forbidden and the context
(including `context.groups`) is unchanged. -/
theorem C6_posix_group_membership (α : Type) (grpDB : PyStr → Option (List PyStr))
    (g : PyStr) (func : Ctx → Outcome α × Ctx) (ctx : Ctx) (u : User)
    (members : List PyStr) (hdb : grpDB g = some members) (hu : ctx.user = some u) :
    (u.name ∈ members →
      (posix_check_group_membership grpDB g func ctx).outcome =
          (func { ctx with groups := insert g ctx.groups }).1 ∧
        (posix_check_group_membership grpDB g func ctx).ctx =
          (func { ctx with groups := insert g ctx.groups }).2) ∧
    (u.name ∉ members →
      (posix_check_group_membership grpDB g func ctx).outcome =
          .forbidden "Forbidden" (some "User not member of designated group") ∧
        (posix_check_group_membership grpDB g func ctx).ctx = ctx) := by
  constructor
  · intro hm
    simp [posix_check_group_membership, hdb, hu, hm]
  · intro hm
    simp [posix_check_group_membership, hdb, hu, hm]

/-- Witness for C6: group "admins" with members ["alice"]; user "alice"
passes and "admins" is recorded into `context.groups`; user "bob" fails as
Forbidden with the context unchanged. -/
theorem C6_posix_group_membership_witness :
    ((posix_check_group_membership
        (fun g => if g = str "admins" then some [str "alice"] else none)
        (str "admins") (fun c => (Outcome.ok (0 : Nat), c))
        ⟨some ⟨none, str "alice", none, none, none, none⟩, ∅, none⟩).outcome =
        (((fun c => (Outcome.ok (0 : Nat), c)) : Ctx → Outcome Nat × Ctx)
          { (⟨some ⟨none, str "alice", none, none, none, none⟩, ∅, none⟩ : Ctx) with
            groups := insert (str "admins") (∅ : Finset PyStr) }).1 ∧
      (posix_check_group_membership
        (fun g => if g = str "admins" then some [str "alice"] else none)
        (str "admins") (fun c => (Outcome.ok (0 : Nat), c))
        ⟨some ⟨none, str "alice", none, none, none, none⟩, ∅, none⟩).ctx =
        (((fun c => (Outcome.ok (0 : Nat), c)) : Ctx → Outcome Nat × Ctx)
          { (⟨some ⟨none, str "alice", none, none, none, none⟩, ∅, none⟩ : Ctx) with
            groups := insert (str "admins") (∅ : Finset PyStr) }).2) ∧
    ((posix_check_group_membership
        (fun g => if g = str "admins" then some [str "alice"] else none)
        (str "admins") (fun c => (Outcome.ok (0 : Nat), c))
        ⟨some ⟨none, str "bob", none, none, none, none⟩, ∅, none⟩).outcome =
        .forbidden "Forbidden" (some "User not member of designated group") ∧
      (posix_check_group_membership
        (fun g => if g = str "admins" then some [str "alice"] else none)
        (str "admins") (fun c => (Outcome.ok (0 : Nat), c))
        ⟨some ⟨none, str "bob", none, none, none, none⟩, ∅, none⟩).ctx =
        ⟨some ⟨none, str "bob", none, none, none, none⟩, ∅, none⟩) :=
  ⟨(C6_posix_group_membership Nat
      (fun g => if g = str "admins" then some [str "alice"] else none)
      (str "admins") (fun c => (Outcome.ok (0 : Nat), c))
      ⟨some ⟨none, str "alice", none, none, none, none⟩, ∅, none⟩
      ⟨none, str "alice", none, none, none, none⟩ [str "alice"]
      (by decide) rfl).1 (by decide),
   (C6_posix_group_membership Nat
      (fun g => if g = str "admins" then some [str "alice"] else none)
      (str "admins") (fun c => (Outcome.ok (0 : Nat), c))
      ⟨some ⟨none, str "bob", none, none, none, none⟩, ∅, none⟩
      ⟨none, str "bob", none, none, none, none⟩ [str "alice"]
      (by decide) rfl).2 (by decide)⟩

/-- C8 (counterexample): re-checking a group already recorded in
`context.groups` DOES query the backing group database again — with
"admins" already in `context.groups`, the check still resolves the system
group (one `getgrnam` query, not zero). -/
theorem C8_recheck_requeries_counterexample :
    (str "admins") ∈
      ({ user := some ⟨none, str "alice", none, none, none, none⟩,
         groups := insert (str "admins") ∅, ldapConn := none } : Ctx).groups ∧
    ¬ ((posix_check_group_membership
        (fun g => if g = str "admins" then some [str "alice"] else none)
        (str "admins") (fun c => (Outcome.ok (0 : Nat), c))
        { user := some ⟨none, str "alice", none, none, none, none⟩,
          groups := insert (str "admins") ∅, ldapConn := none }).queries = 0) ∧
    (posix_check_group_membership
        (fun g => if g = str "admins" then some [str "alice"] else none)
        (str "admins") (fun c => (Outcome.ok (0 : Nat), c))
        { user := some ⟨none, str "alice", none, none, none, none⟩,
          groups := insert (str "admins") ∅, ldapConn := none }).queries = 1 := by
  refine ⟨by decide, by decide, by decide⟩

/-- C8 (amended): re-checking the same group re-queries the backing group
database (one query on the posix path), but for a wrapped operation that
does not itself mutate the context, the outcome and the context are
unchanged by the re-check: adding an already-present name to
`context.groups` is a no-op, on both the posix and the directory variant. -/
theorem C8_recheck_idempotent_but_requeries (α : Type) (fr : Outcome α)
    (grpDB : PyStr → Option (List PyStr)) (searchRes : List (Option PyStr × Unit))
    (g : PyStr) (ctx : Ctx) :
    ((posix_check_group_membership grpDB g (fun c => (fr, c))
        (posix_check_group_membership grpDB g (fun c => (fr, c)) ctx).ctx).outcome =
      (posix_check_group_membership grpDB g (fun c => (fr, c)) ctx).outcome ∧
     (posix_check_group_membership grpDB g (fun c => (fr, c))
        (posix_check_group_membership grpDB g (fun c => (fr, c)) ctx).ctx).ctx =
      (posix_check_group_membership grpDB g (fun c => (fr, c)) ctx).ctx ∧
     (posix_check_group_membership grpDB g (fun c => (fr, c))
        (posix_check_group_membership grpDB g (fun c => (fr, c)) ctx).ctx).queries = 1) ∧
    ((ldap_check_group_membership searchRes g (fun c => (fr, c))
        (ldap_check_group_membership searchRes g (fun c => (fr, c)) ctx).ctx).outcome =
      (ldap_check_group_membership searchRes g (fun c => (fr, c)) ctx).outcome ∧
     (ldap_check_group_membership searchRes g (fun c => (fr, c))
        (ldap_check_group_membership searchRes g (fun c => (fr, c)) ctx).ctx).ctx =
      (ldap_check_group_membership searchRes g (fun c => (fr, c)) ctx).ctx) := by
  constructor
  · cases hdb : grpDB g with
    | none => simp [posix_check_group_membership, hdb]
    | some members =>
      cases hu : ctx.user with
      | none => simp [posix_check_group_membership, hdb, hu]
      | some u =>
        by_cases hm : u.name ∈ members
        · simp [posix_check_group_membership, hdb, hu, hm, Finset.insert_idem]
        · simp [posix_check_group_membership, hdb, hu, hm]
  · cases hu : ctx.user with
    | none => simp [ldap_check_group_membership, hu]
    | some u =>
      cases hdn : u.dn with
      | none => simp [ldap_check_group_membership, hu, hdn]
      | some d =>
        cases hconn : ctx.ldapConn with
        | none => simp [ldap_check_group_membership, hu, hdn, hconn]
        | some cid =>
          by_cases hs : searchRes.any (fun p => p.1.isSome)
          · simp [ldap_check_group_membership, hu, hdn, hconn, hs, Finset.insert_idem]
          · simp [ldap_check_group_membership, hu, hdn, hconn, hs]

/-- C3 (counterexample): a run of `ldap_account_info` that opens a new
directory connection and whose wrapped operation fails does NOT release the
connection: the wrapped operation raises Forbidden and `unbind_s` is never
called (`unbinds = 0` although a new connection was opened). -/
theorem C3_no_release_on_failure_counterexample :
    (ldap_account_info
      ⟨["ldaps://dc1.example.com"], true, some "/tmp/krb5cc_0", true,
        [(some (str "cn=alice,dc=example,dc=com"),
          ⟨[str "Alice Smith"], [str "Alice"], [str "Alice"], [str "Smith"],
           [str "alice@example.com"], []⟩)]⟩
      (fun c => (Outcome.forbidden "Forbidden" none, c))
      ⟨some ⟨some (str "alice@example.com"), str "alice", some (str "example.com"),
        none, none, none⟩, ∅, none⟩ : AcctResult Nat).openedNew = true ∧
    (ldap_account_info
      ⟨["ldaps://dc1.example.com"], true, some "/tmp/krb5cc_0", true,
        [(some (str "cn=alice,dc=example,dc=com"),
          ⟨[str "Alice Smith"], [str "Alice"], [str "Alice"], [str "Smith"],
           [str "alice@example.com"], []⟩)]⟩
      (fun c => ((Outcome.forbidden "Forbidden" none : Outcome Nat), c))
      ⟨some ⟨some (str "alice@example.com"), str "alice", some (str "example.com"),
        none, none, none⟩, ∅, none⟩).outcome = .forbidden "Forbidden" none ∧
    (ldap_account_info
      ⟨["ldaps://dc1.example.com"], true, some "/tmp/krb5cc_0", true,
        [(some (str "cn=alice,dc=example,dc=com"),
          ⟨[str "Alice Smith"], [str "Alice"], [str "Alice"], [str "Smith"],
           [str "alice@example.com"], []⟩)]⟩
      (fun c => ((Outcome.forbidden "Forbidden" none : Outcome Nat), c))
      ⟨some ⟨some (str "alice@example.com"), str "alice", some (str "example.com"),
        none, none, none⟩, ∅, none⟩).unbinds = 0 := by
  refine ⟨rfl, rfl, rfl⟩

/-- C3 (amended): `ldap_account_info` releases the directory connection
exactly when the wrapped operation returns normally; when the wrapped
operation (or any earlier step) fails with an error, `unbind_s` is not
called — the release is skipped on the failure path. -/
theorem C3_release_iff_normal_return (α : Type) (env : LdapAcctEnv)
    (func : Ctx → Outcome α × Ctx) (ctx : Ctx) :
    (ldap_account_info env func ctx).unbinds =
      (if (ldap_account_info env func ctx).outcome.isOk then 1 else 0) := by
  unfold ldap_account_info
  cases hc : ldapAcctConnect env ctx with
  | error e => simp [Outcome.isOk]
  | ok p =>
    obtain ⟨ctx1, opened⟩ := p
    cases hu : ctx1.user with
    | none => simp [hu, Outcome.isOk]
    | some u =>
      cases hf : env.searchResult.find? (fun p => p.1.isSome) with
      | none => simp [hu, hf, Outcome.isOk]
      | some pe =>
        obtain ⟨dnOpt, entry⟩ := pe
        cases dnOpt with
        | none => simp [hu, hf, Outcome.isOk]
        | some dn =>
          cases he : enrichFromEntry dn entry u with
          | error e => simp [hu, hf, he, Outcome.isOk]
          | ok u2 =>
            cases ho : (func { ctx1 with user := some u2 }).1 <;>
              simp [hu, hf, he, ho, Outcome.isOk]

/-- C2: for every configured authentication backend (kerberos, ldap, pam), a
request whose Authorization header is absent fails as Unauthorized
(`falcon.HTTPUnauthorized` is raised), the backend-appropriate challenge
header — `Negotiate` for kerberos, `Basic` for ldap and pam — is appended to
the response before failing, and the context (in particular `context.user`)
is left untouched. -/
theorem C2_missing_credentials (α : Type) (gss : GssBehavior) (dom : PyStr)
    (servers : List String) (b64 : PyStr → PyStr)
    (bindOk : String → PyStr → PyStr → Bool) (pamOk : PyStr → PyStr → Bool)
    (func accountFunc : Ctx → Outcome α × Ctx) (p : Bool) (ctx : Ctx)
    (hdrs : List (String × String)) :
    authenticate "kerberos" false gss dom servers b64 bindOk pamOk
        func accountFunc ⟨none, p⟩ ctx hdrs =
      ⟨.unauthorized "Unauthorized"
        (some "No Kerberos ticket offered, are you sure you've logged in with domain user account?"),
        ctx, hdrs ++ [("WWW-Authenticate", "Negotiate")], 0, none⟩ ∧
    authenticate "ldap" false gss dom servers b64 bindOk pamOk
        func accountFunc ⟨none, p⟩ ctx hdrs =
      ⟨.unauthorized "Forbidden"
        (some ("Please authenticate with " ++ asString dom ++ " domain account or supply UPN")),
        ctx, hdrs ++ [("WWW-Authenticate", "Basic")], 0, none⟩ ∧
    authenticate "pam" false gss dom servers b64 bindOk pamOk
        func accountFunc ⟨none, p⟩ ctx hdrs =
      ⟨.unauthorized "Forbidden" (some "Please authenticate"),
        ctx, hdrs ++ [("WWW-Authenticate", "Basic")], 0, none⟩ := by
  refine ⟨rfl, rfl, rfl⟩

/-- C4 (counterexample): the token passed to the GSSAPI server step is NOT
the second space-separated field of the Authorization header when the header
has more than two fields: for header "Negotiate abc def" the step receives
"abcdef" (the concatenation of all fields after the first), not the second
field "abc". -/
theorem C4_token_counterexample :
    pySplitWs (str "Negotiate abc def") = [str "Negotiate", str "abc", str "def"] ∧
    (kerberos_authenticate false ⟨true, "", "", .ok 1, str "alice", true, "", 0, "", 0⟩
      (fun c => (Outcome.ok (0 : Nat), c)) (fun c => (Outcome.ok (0 : Nat), c))
      ⟨some (str "Negotiate abc def"), false⟩ ⟨none, ∅, none⟩ []).stepArg =
      some (str "abcdef") ∧
    (str "abcdef" : PyStr) ≠ (pySplitWs (str "Negotiate abc def")).getD 1 [] := by
  refine ⟨by decide, by decide, by decide⟩

/-- C4 (amended): for every non-empty Authorization header value on the
kerberos path (and a successful GSSAPI init, so that the step is reached),
the token passed to the GSSAPI server step is the concatenation of all
space-separated fields of the header after the first; when the header has
exactly two space-separated fields this is exactly the second field. -/
theorem C4_token_is_join_of_tail (α : Type) (gss : GssBehavior)
    (func accountFunc : Ctx → Outcome α × Ctx) (auth : PyStr) (p : Bool)
    (ctx : Ctx) (hdrs : List (String × String)) (hinit : gss.initOk = true) :
    (kerberos_authenticate false gss func accountFunc ⟨some auth, p⟩ ctx hdrs).stepArg =
      some (pyJoin ((pySplitWs auth).drop 1)) ∧
    ((pySplitWs auth).length = 2 →
      (kerberos_authenticate false gss func accountFunc ⟨some auth, p⟩ ctx hdrs).stepArg =
        some ((pySplitWs auth).getD 1 [])) := by
  have harg : (kerberos_authenticate false gss func accountFunc
      ⟨some auth, p⟩ ctx hdrs).stepArg = some (kerberosToken auth) := by
    unfold kerberos_authenticate
    simp only [hinit]
    cases hs : gss.stepRes with
    | gssFail a b c d => cases hcl : gss.cleanOk <;> simp [hs, hcl]
    | krbFail m => cases hcl : gss.cleanOk <;> simp [hs, hcl]
    | ok result =>
      cases hui : userInit gss.userName with
      | error e => simp [hs, hui]
      | ok u =>
        cases hcl : gss.cleanOk with
        | false => simp [hs, hui, hcl]
        | true =>
          simp [hs, hui, hcl]
          split
          · rfl
          · split <;> rfl
  refine ⟨harg, ?_⟩
  intro hlen
  obtain ⟨a, b, hab⟩ := List.length_eq_two.mp hlen
  rw [harg, kerberosToken, hab]
  simp [pyJoin]

/-- Witness for C4 (amended), at the concrete header "Negotiate abc": the
step receives the join of the fields after the first, which — the header
having exactly two fields — is the second field. -/
theorem C4_token_is_join_of_tail_witness :
    (kerberos_authenticate false ⟨true, "", "", .ok 1, str "alice", true, "", 0, "", 0⟩
      (fun c => (Outcome.ok (0 : Nat), c)) (fun c => (Outcome.ok (0 : Nat), c))
      ⟨some (str "Negotiate abc"), false⟩ ⟨none, ∅, none⟩ []).stepArg =
      some (pyJoin ((pySplitWs (str "Negotiate abc")).drop 1)) ∧
    ((pySplitWs (str "Negotiate abc")).length = 2 →
      (kerberos_authenticate false ⟨true, "", "", .ok 1, str "alice", true, "", 0, "", 0⟩
        (fun c => (Outcome.ok (0 : Nat), c)) (fun c => (Outcome.ok (0 : Nat), c))
        ⟨some (str "Negotiate abc"), false⟩ ⟨none, ∅, none⟩ []).stepArg =
        some ((pySplitWs (str "Negotiate abc")).getD 1 [])) :=
  C4_token_is_join_of_tail Nat ⟨true, "", "", .ok 1, str "alice", true, "", 0, "", 0⟩
    (fun c => (Outcome.ok (0 : Nat), c)) (fun c => (Outcome.ok (0 : Nat), c))
    (str "Negotiate abc") false ⟨none, ∅, none⟩ [] rfl

/-- C5: on the kerberos path, when the GSSAPI server step fails with a
mechanism-level error (`GSSError`), the GSSAPI context is released (the
clean-up call happens on the failure path, whatever its own outcome) and —
the clean-up itself not failing — the result is Forbidden carrying the
mechanism's error text and code; and when the step succeeds but the clean-up
fails, the result is Unauthorized. -/
theorem C5_step_failure_forbidden_and_released (α : Type) (gss : GssBehavior)
    (func accountFunc : Ctx → Outcome α × Ctx) (auth : PyStr) (p : Bool)
    (ctx : Ctx) (hdrs : List (String × String)) (hinit : gss.initOk = true) :
    (∀ majT majC minT minC, gss.stepRes = .gssFail majT majC minT minC →
      (kerberos_authenticate false gss func accountFunc
          ⟨some auth, p⟩ ctx hdrs).cleanCalls = 1 ∧
      (gss.cleanOk = true →
        (kerberos_authenticate false gss func accountFunc
            ⟨some auth, p⟩ ctx hdrs).outcome =
          .forbidden "Forbidden"
            (some ("Bad credentials: " ++ majT ++ " (" ++ toString majC ++ ")")))) ∧
    (∀ result u, gss.stepRes = .ok result → userInit gss.userName = .ok u →
      gss.cleanOk = false →
      (kerberos_authenticate false gss func accountFunc
          ⟨some auth, p⟩ ctx hdrs).outcome =
        .unauthorized ("Authentication System Failure " ++ gss.cleanMajorText ++
          " (" ++ gss.cleanMinorText ++ ")") none) := by
  constructor
  · intro majT majC minT minC hs
    constructor
    · unfold kerberos_authenticate
      simp only [hinit, hs]
      cases hcl : gss.cleanOk <;> simp [hcl]
    · intro hcl
      unfold kerberos_authenticate
      simp [hinit, hs, hcl]
  · intro result u hs hui hcl
    unfold kerberos_authenticate
    simp [hinit, hs, hui, hcl]

/-- Witness for C5 at concrete inputs: a step failing with major error
("No credentials", 851968) and a working clean-up yields the Forbidden
message with that text and code, with one clean-up call; a successful step
whose clean-up fails yields Unauthorized. -/
theorem C5_step_failure_forbidden_and_released_witness :
    ((kerberos_authenticate false
        ⟨true, "", "", .gssFail "No credentials" 851968 "Minor" 0, str "alice", true, "", 0, "", 0⟩
        (fun c => (Outcome.ok (0 : Nat), c)) (fun c => (Outcome.ok (0 : Nat), c))
        ⟨some (str "Negotiate abc"), false⟩ ⟨none, ∅, none⟩ []).cleanCalls = 1 ∧
      (kerberos_authenticate false
        ⟨true, "", "", .gssFail "No credentials" 851968 "Minor" 0, str "alice", true, "", 0, "", 0⟩
        (fun c => (Outcome.ok (0 : Nat), c)) (fun c => (Outcome.ok (0 : Nat), c))
        ⟨some (str "Negotiate abc"), false⟩ ⟨none, ∅, none⟩ []).outcome =
        .forbidden "Forbidden"
          (some ("Bad credentials: " ++ "No credentials" ++ " (" ++ toString (851968 : Int) ++ ")"))) ∧
    (kerberos_authenticate false
        ⟨true, "", "", .ok 1, str "alice", false, "Clean failed" , 1, "Minor fail", 2⟩
        (fun c => (Outcome.ok (0 : Nat), c)) (fun c => (Outcome.ok (0 : Nat), c))
        ⟨some (str "Negotiate abc"), false⟩ ⟨none, ∅, none⟩ []).outcome =
      .unauthorized ("Authentication System Failure " ++ "Clean failed" ++
        " (" ++ "Minor fail" ++ ")") none :=
  ⟨⟨((C5_step_failure_forbidden_and_released Nat
      ⟨true, "", "", .gssFail "No credentials" 851968 "Minor" 0, str "alice", true, "", 0, "", 0⟩
      (fun c => (Outcome.ok (0 : Nat), c)) (fun c => (Outcome.ok (0 : Nat), c))
      (str "Negotiate abc") false ⟨none, ∅, none⟩ [] rfl).1
      "No credentials" 851968 "Minor" 0 rfl).1,
    ((C5_step_failure_forbidden_and_released Nat
      ⟨true, "", "", .gssFail "No credentials" 851968 "Minor" 0, str "alice", true, "", 0, "", 0⟩
      (fun c => (Outcome.ok (0 : Nat), c)) (fun c => (Outcome.ok (0 : Nat), c))
      (str "Negotiate abc") false ⟨none, ∅, none⟩ [] rfl).1
      "No credentials" 851968 "Minor" 0 rfl).2 rfl⟩,
   (C5_step_failure_forbidden_and_released Nat
      ⟨true, "", "", .ok 1, str "alice", false, "Clean failed", 1, "Minor fail", 2⟩
      (fun c => (Outcome.ok (0 : Nat), c)) (fun c => (Outcome.ok (0 : Nat), c))
      (str "Negotiate abc") false ⟨none, ∅, none⟩ [] rfl).2
      1 ⟨none, str "alice", none, none, none, none⟩ rfl rfl rfl⟩

end Certidude
